import Mathlib

/-!
Verification development for the `ai-weather-insights-agent` backend.

The definitions below are a shallow embedding of the Python source under
`src/backend/`:
  * numeric weather readings (Python floats / ints) are embedded as `ℚ`;
  * raised exceptions are embedded as `Except.error` carrying `str(e)`;
  * `None` is embedded as `Option.none`;
  * external collaborators (the OpenWeather HTTP API, the OpenAI text
    generation backend, the Qdrant vector store) are embedded as oracle
    functions supplied by the caller, matching the spec's "external
    collaborator" boundary;
  * Python's `sorted` (a stable sort) is embedded as
    `List.insertionSort`, which is also stable, hence produces the
    identical output for the identical key order.
-/

/-! Part 1: services/rag_service.py -/

/-- RAGResult (rag_service.py, lines 24-30): one search hit, a read-only
projection of a knowledge document plus the query-specific score. -/
structure RAGResult where
  content : String
  score : ℚ
  source : String
  category : String
  location : Option String := none
deriving DecidableEq

/-- One iteration of the duplicate-removal loop of `get_contextual_knowledge`
(rag_service.py, lines 275-278): the Python dict `unique_results` keyed by
`content` is embedded as a list in key-insertion order; an entry is replaced
in place when the incoming score is strictly higher. -/
def dedupStep (acc : List RAGResult) (r : RAGResult) : List RAGResult :=
  match acc.find? (fun x => x.content == r.content) with
  | none => acc ++ [r]
  | some x =>
      if x.score < r.score then
        acc.map (fun y => if y.content == r.content then r else y)
      else acc

/-- The whole duplicate-removal loop of `get_contextual_knowledge`
(rag_service.py, lines 275-278) over the gathered search results. -/
def dedupByContent (results : List RAGResult) : List RAGResult :=
  results.foldl dedupStep []

/-- Comparison used by `sorted(..., key=lambda x: x.score, reverse=True)`
(rag_service.py, line 280): non-increasing score order. -/
def ragGE (a b : RAGResult) : Prop := b.score ≤ a.score

instance : DecidableRel ragGE := fun a b => inferInstanceAs (Decidable (b.score ≤ a.score))

instance : IsTotal RAGResult ragGE := ⟨fun a b => le_total b.score a.score⟩

instance : IsTrans RAGResult ragGE := ⟨fun _ _ _ h1 h2 => le_trans h2 h1⟩

/-- Merge step of `get_contextual_knowledge` (rag_service.py, lines 230-280).
`results` is the concatenation of the three search branches exactly as the
source gathers them into its `results` list (direct search top 3, then the
farmers-only best-practice search top 2, then the weather-advisory search
top 2); the branches themselves are Qdrant calls, i.e. external. The merged
output removes duplicate contents keeping the higher score, then sorts by
score descending (Python's stable `sorted`) and truncates to the top 5. -/
def get_contextual_knowledge (results : List RAGResult) : List RAGResult :=
  (List.insertionSort ragGE (dedupByContent results)).take 5

lemma dedupStep_mem {acc : List RAGResult} {r x : RAGResult}
    (hx : x ∈ dedupStep acc r) : x ∈ acc ∨ x = r := by
  unfold dedupStep at hx
  split at hx
  · rcases List.mem_append.1 hx with h | h
    · exact Or.inl h
    · exact Or.inr (List.mem_singleton.1 h)
  · split at hx
    · rcases List.mem_map.1 hx with ⟨y, hy, hyx⟩
      have hyx2 : (if y.content == r.content then r else y) = x := hyx
      by_cases hc : y.content == r.content
      · rw [if_pos hc] at hyx2; exact Or.inr hyx2.symm
      · rw [if_neg hc] at hyx2; exact Or.inl (hyx2 ▸ hy)
    · exact Or.inl hx

lemma dedupStep_contents_nodup {acc : List RAGResult} (r : RAGResult)
    (h : (acc.map (·.content)).Nodup) :
    ((dedupStep acc r).map (·.content)).Nodup := by
  unfold dedupStep
  split
  case h_1 hfind =>
    rw [List.find?_eq_none] at hfind
    rw [List.map_append]
    simp only [List.map_cons, List.map_nil]
    rw [List.nodup_append]
    refine ⟨h, List.nodup_singleton _, ?_⟩
    intro a ha hb
    simp only [List.mem_singleton] at hb
    rcases List.mem_map.1 ha with ⟨y, hy, hya⟩
    apply hfind y hy
    have hya2 : y.content = a := hya
    simp only [beq_iff_eq]
    rw [hya2, hb]
  case h_2 x hfind =>
    split
    · have hmap : ((acc.map (fun y => if y.content == r.content then r else y)).map (·.content))
          = acc.map (·.content) := by
        rw [List.map_map]
        apply List.map_congr_left
        intro y _
        show (if y.content == r.content then r else y).content = y.content
        by_cases hc : y.content == r.content
        · rw [if_pos hc]; exact (eq_of_beq hc).symm
        · rw [if_neg hc]
      rw [hmap]; exact h
    · exact h

lemma dedupStep_dominates {acc : List RAGResult} (r : RAGResult)
    (h : (acc.map (·.content)).Nodup) :
    (∀ y ∈ acc, ∃ x ∈ dedupStep acc r, x.content = y.content ∧ y.score ≤ x.score) ∧
    (∃ x ∈ dedupStep acc r, x.content = r.content ∧ r.score ≤ x.score) := by
  unfold dedupStep
  split
  case h_1 hfind =>
    constructor
    · intro y hy
      exact ⟨y, List.mem_append.2 (Or.inl hy), rfl, le_refl _⟩
    · exact ⟨r, List.mem_append.2 (Or.inr (List.mem_singleton.2 rfl)), rfl, le_refl _⟩
  case h_2 x hfind =>
    have hxacc : x ∈ acc := List.mem_of_find?_eq_some hfind
    have hxc0 := List.find?_some hfind
    have hxc : (x.content == r.content) = true := hxc0
    have hxc2 : x.content = r.content := eq_of_beq hxc
    split
    case isTrue hlt =>
      constructor
      · intro y hy
        by_cases hc : y.content == r.content
        · have hyx : y = x :=
            List.inj_on_of_nodup_map h hy hxacc (by rw [eq_of_beq hc, hxc2])
          refine ⟨r, List.mem_map.2 ⟨y, hy, ?_⟩, ?_, ?_⟩
          · show (if y.content == r.content then r else y) = r
            rw [if_pos hc]
          · rw [← eq_of_beq hc]
          · subst hyx; exact le_of_lt hlt
        · refine ⟨y, List.mem_map.2 ⟨y, hy, ?_⟩, rfl, le_refl _⟩
          show (if y.content == r.content then r else y) = y
          rw [if_neg hc]
      · refine ⟨r, List.mem_map.2 ⟨x, hxacc, ?_⟩, rfl, le_refl _⟩
        show (if x.content == r.content then r else x) = r
        rw [if_pos hxc]
    case isFalse hge =>
      constructor
      · intro y hy
        exact ⟨y, hy, rfl, le_refl _⟩
      · exact ⟨x, hxacc, hxc2, le_of_not_lt hge⟩

lemma dedup_fold_mem : ∀ (l acc : List RAGResult),
    ∀ x ∈ l.foldl dedupStep acc, x ∈ acc ∨ x ∈ l := by
  intro l
  induction l with
  | nil => intro acc x hx; exact Or.inl hx
  | cons r rest ih =>
      intro acc x hx
      rcases ih (dedupStep acc r) x hx with h | h
      · rcases dedupStep_mem h with h' | h'
        · exact Or.inl h'
        · exact Or.inr (h' ▸ List.mem_cons_self r rest)
      · exact Or.inr (List.mem_cons_of_mem r h)

lemma dedup_fold_nodup : ∀ (l acc : List RAGResult),
    (acc.map (·.content)).Nodup →
    ((l.foldl dedupStep acc).map (·.content)).Nodup := by
  intro l
  induction l with
  | nil => intro acc h; exact h
  | cons r rest ih =>
      intro acc h
      exact ih (dedupStep acc r) (dedupStep_contents_nodup r h)

lemma dedup_fold_preserves : ∀ (l acc : List RAGResult),
    (acc.map (·.content)).Nodup →
    ∀ y ∈ acc, ∃ x ∈ l.foldl dedupStep acc, x.content = y.content ∧ y.score ≤ x.score := by
  intro l
  induction l with
  | nil => intro acc _ y hy; exact ⟨y, hy, rfl, le_refl _⟩
  | cons r rest ih =>
      intro acc h y hy
      rcases (dedupStep_dominates r h).1 y hy with ⟨x, hx, hc, hs⟩
      rcases ih (dedupStep acc r) (dedupStep_contents_nodup r h) x hx with ⟨x2, hx2, hc2, hs2⟩
      exact ⟨x2, hx2, hc2.trans hc, hs.trans hs2⟩

lemma dedup_fold_covers : ∀ (l acc : List RAGResult),
    (acc.map (·.content)).Nodup →
    ∀ s ∈ l, ∃ x ∈ l.foldl dedupStep acc, x.content = s.content ∧ s.score ≤ x.score := by
  intro l
  induction l with
  | nil => intro acc _ s hs; exact absurd hs (List.not_mem_nil s)
  | cons r rest ih =>
      intro acc h s hs
      rcases List.mem_cons.1 hs with rfl | hs'
      · rcases (dedupStep_dominates s h).2 with ⟨x, hx, hc, hsc⟩
        rcases dedup_fold_preserves rest (dedupStep acc s)
          (dedupStep_contents_nodup s h) x hx with ⟨x2, hx2, hc2, hs2⟩
        exact ⟨x2, hx2, hc2.trans hc, hsc.trans hs2⟩
      · exact ih (dedupStep acc r) (dedupStep_contents_nodup r h) s hs'

/-- Claim C4: for every multiset of retrieval results gathered across the
knowledge-retrieval branches, the merged output of
`get_contextual_knowledge` keeps at most one entry per distinct content
string, on duplicate content the kept entry's score dominates every score
seen for that content, every kept entry comes from the input, and the
merged output is sorted by score descending and truncated to at most 5
entries. -/
theorem get_contextual_knowledge_spec (results : List RAGResult) :
    (get_contextual_knowledge results).length ≤ 5 ∧
    ((get_contextual_knowledge results).map (·.content)).Nodup ∧
    (get_contextual_knowledge results).Pairwise (fun a b => b.score ≤ a.score) ∧
    (∀ r ∈ get_contextual_knowledge results, r ∈ results) ∧
    (∀ r ∈ get_contextual_knowledge results, ∀ s ∈ results,
      s.content = r.content → s.score ≤ r.score) := by
  have hdnodup : ((dedupByContent results).map (·.content)).Nodup :=
    dedup_fold_nodup results [] (by simp)
  have hperm : (List.insertionSort ragGE (dedupByContent results)).Perm
      (dedupByContent results) := List.perm_insertionSort _ _
  have hsnodup : ((List.insertionSort ragGE (dedupByContent results)).map (·.content)).Nodup :=
    ((hperm.map (·.content)).nodup_iff).2 hdnodup
  have htakesub : (get_contextual_knowledge results).Sublist
      (List.insertionSort ragGE (dedupByContent results)) := List.take_sublist _ _
  have hmemdedup : ∀ r ∈ get_contextual_knowledge results, r ∈ dedupByContent results := by
    intro r hr
    exact (List.mem_insertionSort ragGE).1 (htakesub.mem hr)
  refine ⟨?_, ?_, ?_, ?_, ?_⟩
  · exact List.length_take_le 5 _
  · exact List.Nodup.sublist (htakesub.map (·.content)) hsnodup
  · have hsorted : (List.insertionSort ragGE (dedupByContent results)).Pairwise ragGE :=
      List.sorted_insertionSort ragGE _
    exact List.Pairwise.sublist htakesub hsorted
  · intro r hr
    rcases dedup_fold_mem results [] r (hmemdedup r hr) with h | h
    · exact absurd h (List.not_mem_nil r)
    · exact h
  · intro r hr s hs hcontent
    rcases dedup_fold_covers results [] (by simp) s hs with ⟨x, hx, hxc, hxs⟩
    have hrx : x = r := by
      apply List.inj_on_of_nodup_map hdnodup hx (hmemdedup r hr)
      rw [hxc, hcontent]
    exact hxs.trans (le_of_eq (by rw [hrx]))

/-- Concrete input for the claim C4 witness: the spec's deduplication
example, two branches returning the identical content string with scores
0.6 and 0.9 (embedded here scaled to the integral rationals 6 and 9). -/
def c4ex : List RAGResult :=
  [⟨"secure equipment", 6, "system", "best_practice", none⟩,
   ⟨"secure equipment", 9, "system", "weather_advisory", none⟩]

theorem get_contextual_knowledge_spec_witness :
    get_contextual_knowledge c4ex
      = [⟨"secure equipment", 9, "system", "weather_advisory", none⟩] ∧
    (get_contextual_knowledge c4ex).length ≤ 5 ∧
    (6 : ℚ) ≤ 9 := by
  refine ⟨by decide, (get_contextual_knowledge_spec c4ex).1, ?_⟩
  exact (get_contextual_knowledge_spec c4ex).2.2.2.2
    ⟨"secure equipment", 9, "system", "weather_advisory", none⟩ (by decide)
    ⟨"secure equipment", 6, "system", "best_practice", none⟩ (by decide) (by decide)

/-! Part 2: services/weather_api.py data model and agents/forecast_agent.py -/

/-- WeatherData (weather_api.py, lines 9-23). Python floats and ints are
embedded as `ℚ`; the observation datetime is embedded as an integer epoch. -/
structure WeatherData where
  location : String
  latitude : ℚ
  longitude : ℚ
  temperature : ℚ
  humidity : ℚ
  pressure : ℚ
  wind_speed : ℚ
  wind_direction : Int
  weather_condition : String
  description : String
  timestamp : Int
  visibility : Option ℚ := none
  uv_index : Option ℚ := none
deriving DecidableEq

/-- ForecastData (weather_api.py, lines 26-29). -/
structure ForecastData where
  location : String
  forecasts : List WeatherData
deriving DecidableEq

/-- Maximum of a pandas Series column; only applied to nonempty columns
(the source raises on an empty frame, modelled by `assess_risks`). -/
def qListMax : List ℚ → ℚ
  | [] => 0
  | x :: xs => xs.foldl max x

/-- Minimum of a pandas Series column (nonempty use only). -/
def qListMin : List ℚ → ℚ
  | [] => 0
  | x :: xs => xs.foldl min x

/-- Mean of a pandas Series column (nonempty use only). -/
def qMean (l : List ℚ) : ℚ := l.sum / l.length

/-- Storm condition codes (forecast_agent.py, line 292). -/
def stormConditions : List String := ["Thunderstorm", "Squall"]

/-- Rain-type condition codes (forecast_agent.py, line 305). -/
def rainConditions : List String := ["Rain", "Drizzle", "Thunderstorm"]

def heatAlert : String :=
  "HEAT WARNING: Extreme temperatures expected - risk of heat stress"

def frostAlert : String :=
  "FROST WARNING: Freezing temperatures expected - protect crops and livestock"

def stormAlert : String :=
  "STORM ALERT: Thunderstorms predicted - secure outdoor equipment"

def windAlert : String :=
  "HIGH WIND WARNING: Strong winds expected - avoid tall structures"

def humidityAlert : String :=
  "HIGH HUMIDITY: Increased risk of plant diseases and heat stress"

def droughtAlert : String :=
  "DRY CONDITIONS: No rain expected - monitor irrigation needs"

/-- ForecastAgent._assess_risks (forecast_agent.py, lines 278-309): the six
risk checks over the forecast DataFrame, appended in evaluation order. An
empty forecast list is `none`: pandas raises on column access over an empty
frame (`pd.DataFrame([])` has no columns). -/
def assess_risks (forecasts : List WeatherData) : Option (List String) :=
  match forecasts with
  | [] => none
  | w :: ws =>
      some (
        (if 35 < qListMax ((w :: ws).map (·.temperature)) then [heatAlert] else []) ++
        ((if qListMin ((w :: ws).map (·.temperature)) < 0 then [frostAlert] else []) ++
        ((if ∃ x ∈ w :: ws, x.weather_condition ∈ stormConditions then [stormAlert] else []) ++
        ((if 20 < qListMax ((w :: ws).map (·.wind_speed)) then [windAlert] else []) ++
        ((if 85 < qMean ((w :: ws).map (·.humidity)) then [humidityAlert] else []) ++
        (if (∀ x ∈ w :: ws, x.weather_condition ∉ rainConditions) ∧
            qMean ((w :: ws).map (·.humidity)) < 50 then [droughtAlert] else []))))))

lemma mem_ifSingleton {c : Prop} [Decidable c] {m x : String} :
    x ∈ (if c then [m] else []) ↔ c ∧ x = m := by
  split
  case isTrue h => simp [h]
  case isFalse h => simp [h]

lemma ifSingleton_sublist {c : Prop} [Decidable c] (m : String) :
    (if c then [m] else []).Sublist [m] := by
  split
  · exact List.Sublist.refl _
  · exact List.nil_sublist _

/-- Claim C5: for every nonempty forecast series, the risk-alert list contains
each of the six alerts exactly when its threshold is met (heat iff max
temperature > 35, frost iff min temperature < 0, storm iff some condition is
Thunderstorm or Squall, high wind iff max wind speed > 20, high humidity iff
mean humidity > 85, drought iff no rain-type condition is present and mean
humidity < 50), each independently of the others, and the alerts appear in
exactly that evaluation order (the list is a sublist of the canonical
six-alert sequence). -/
theorem assess_risks_spec (forecasts : List WeatherData) (h : forecasts ≠ []) :
    ∃ l, assess_risks forecasts = some l ∧
      (heatAlert ∈ l ↔ 35 < qListMax (forecasts.map (·.temperature))) ∧
      (frostAlert ∈ l ↔ qListMin (forecasts.map (·.temperature)) < 0) ∧
      (stormAlert ∈ l ↔ ∃ x ∈ forecasts, x.weather_condition ∈ stormConditions) ∧
      (windAlert ∈ l ↔ 20 < qListMax (forecasts.map (·.wind_speed))) ∧
      (humidityAlert ∈ l ↔ 85 < qMean (forecasts.map (·.humidity))) ∧
      (droughtAlert ∈ l ↔ ((∀ x ∈ forecasts, x.weather_condition ∉ rainConditions) ∧
          qMean (forecasts.map (·.humidity)) < 50)) ∧
      l.Sublist [heatAlert, frostAlert, stormAlert, windAlert, humidityAlert, droughtAlert] := by
  cases forecasts with
  | nil => exact absurd rfl h
  | cons w ws =>
      refine ⟨_, rfl, ?_, ?_, ?_, ?_, ?_, ?_, ?_⟩
      case _ =>
        simp only [List.mem_append, mem_ifSingleton]
        constructor
        · rintro (⟨hc, he⟩ | ⟨hc, he⟩ | ⟨hc, he⟩ | ⟨hc, he⟩ | ⟨hc, he⟩ | ⟨hc, he⟩) <;>
            first
            | exact absurd he (by decide)
            | exact hc
        · intro hc
          exact Or.inl ⟨hc, trivial⟩
      case _ =>
        simp only [List.mem_append, mem_ifSingleton]
        constructor
        · rintro (⟨hc, he⟩ | ⟨hc, he⟩ | ⟨hc, he⟩ | ⟨hc, he⟩ | ⟨hc, he⟩ | ⟨hc, he⟩) <;>
            first
            | exact absurd he (by decide)
            | exact hc
        · intro hc
          exact Or.inr (Or.inl ⟨hc, trivial⟩)
      case _ =>
        simp only [List.mem_append, mem_ifSingleton]
        constructor
        · rintro (⟨hc, he⟩ | ⟨hc, he⟩ | ⟨hc, he⟩ | ⟨hc, he⟩ | ⟨hc, he⟩ | ⟨hc, he⟩) <;>
            first
            | exact absurd he (by decide)
            | exact hc
        · intro hc
          exact Or.inr (Or.inr (Or.inl ⟨hc, trivial⟩))
      case _ =>
        simp only [List.mem_append, mem_ifSingleton]
        constructor
        · rintro (⟨hc, he⟩ | ⟨hc, he⟩ | ⟨hc, he⟩ | ⟨hc, he⟩ | ⟨hc, he⟩ | ⟨hc, he⟩) <;>
            first
            | exact absurd he (by decide)
            | exact hc
        · intro hc
          exact Or.inr (Or.inr (Or.inr (Or.inl ⟨hc, trivial⟩)))
      case _ =>
        simp only [List.mem_append, mem_ifSingleton]
        constructor
        · rintro (⟨hc, he⟩ | ⟨hc, he⟩ | ⟨hc, he⟩ | ⟨hc, he⟩ | ⟨hc, he⟩ | ⟨hc, he⟩) <;>
            first
            | exact absurd he (by decide)
            | exact hc
        · intro hc
          exact Or.inr (Or.inr (Or.inr (Or.inr (Or.inl ⟨hc, trivial⟩))))
      case _ =>
        simp only [List.mem_append, mem_ifSingleton]
        constructor
        · rintro (⟨hc, he⟩ | ⟨hc, he⟩ | ⟨hc, he⟩ | ⟨hc, he⟩ | ⟨hc, he⟩ | ⟨hc, he⟩) <;>
            first
            | exact absurd he (by decide)
            | exact hc
        · intro hc
          exact Or.inr (Or.inr (Or.inr (Or.inr (Or.inr ⟨hc, trivial⟩))))
      case _ =>
        exact (ifSingleton_sublist _).append ((ifSingleton_sublist _).append
          ((ifSingleton_sublist _).append ((ifSingleton_sublist _).append
          ((ifSingleton_sublist _).append (ifSingleton_sublist _)))))

/-- Concrete forecast point for the claim C5 witness: a heat spike of 38°C. -/
def c5ex : WeatherData :=
  ⟨"Manila, PH", 14, 121, 38, 60, 1010, 5, 90, "Clear", "clear sky", 0, none, none⟩

theorem assess_risks_spec_witness :
    (([c5ex] : List WeatherData) ≠ []) ∧
    (∃ l, assess_risks [c5ex] = some l ∧
      (heatAlert ∈ l ↔ 35 < qListMax (([c5ex] : List WeatherData).map (·.temperature))) ∧
      (frostAlert ∈ l ↔ qListMin (([c5ex] : List WeatherData).map (·.temperature)) < 0) ∧
      (stormAlert ∈ l ↔ ∃ x ∈ [c5ex], x.weather_condition ∈ stormConditions) ∧
      (windAlert ∈ l ↔ 20 < qListMax (([c5ex] : List WeatherData).map (·.wind_speed))) ∧
      (humidityAlert ∈ l ↔ 85 < qMean (([c5ex] : List WeatherData).map (·.humidity))) ∧
      (droughtAlert ∈ l ↔ ((∀ x ∈ [c5ex], x.weather_condition ∉ rainConditions) ∧
          qMean (([c5ex] : List WeatherData).map (·.humidity)) < 50)) ∧
      l.Sublist [heatAlert, frostAlert, stormAlert, windAlert, humidityAlert, droughtAlert]) :=
  ⟨by decide, assess_risks_spec [c5ex] (by decide)⟩

/-! Part 3: agents/data_agent.py -/

/-- Python `str.split(sep)` over a character list: splits on every separator
occurrence without collapsing, so the result is always nonempty. -/
def pySplit (sep : Char) : List Char → List (List Char)
  | [] => [[]]
  | c :: cs =>
      match pySplit sep cs with
      | [] => [[c]]
      | h :: t => if c = sep then [] :: h :: t else (c :: h) :: t

/-- Python `str.strip()` over a character list (whitespace on both ends). -/
def pyStrip (l : List Char) : List Char :=
  ((l.dropWhile Char.isWhitespace).reverse.dropWhile Char.isWhitespace).reverse

/-- Python `str.lower()` over a character list. -/
def pyLower (l : List Char) : List Char := l.map Char.toLower

/-- The tail part of Python `str.split(sep, 1)`: everything after the first
separator, or `none` when the separator is absent. -/
def splitOnceRest (sep : Char) : List Char → Option (List Char)
  | [] => none
  | c :: cs => if c = sep then some cs else splitOnceRest sep cs

/-- Element 1 of Python `str.split(sep)`; every use in the source is guarded
by a `startswith` check that guarantees the separator is present. -/
def secondField (sep : Char) (l : List Char) : List Char :=
  ((pySplit sep l).drop 1).headD []

/-- Digit run to a natural number (value of a digit-only string). -/
def digitsToNat (l : List Char) : Nat :=
  l.foldl (fun acc c => 10 * acc + (c.toNat - 48)) 0

def allDigits (l : List Char) : Bool := l.all (·.isDigit)

/-- Python `float(s)` restricted to plain decimal literals (optional sign,
digits, optional fractional part). Scientific notation, underscores and
inf/nan are omitted: the claims never depend on which strings parse, only
on how the parsed value is merged downstream. `none` models `ValueError`. -/
def parseDecimal (l : List Char) : Option ℚ :=
  match pyStrip l with
  | '-' :: body => parseDecimalBody (-1) body
  | '+' :: body => parseDecimalBody 1 body
  | body => parseDecimalBody 1 body
where
  parseDecimalBody (sign : ℚ) (body : List Char) : Option ℚ :=
    match pySplit '.' body with
    | [intPart] =>
        if intPart ≠ [] ∧ allDigits intPart then some (sign * digitsToNat intPart) else none
    | [intPart, fracPart] =>
        if (intPart ≠ [] ∨ fracPart ≠ []) ∧ allDigits intPart ∧ allDigits fracPart then
          some (sign * ((digitsToNat intPart : ℚ)
            + (digitsToNat fracPart : ℚ) / (10 ^ fracPart.length)))
        else none
    | _ => none

/-- DataAgent._parse_ai_response (data_agent.py, lines 185-211): scans the
response lines for the three labelled fields; a later QUALITY SCORE line
overrides the score (default 0.8, also on a malformed number), ISSUES
FOUND / RECOMMENDATIONS lines extend the two lists. Returns
(quality_score, anomalies, recommendations). -/
def parse_ai_response (response : String) : ℚ × List String × List String :=
  (pySplit '\n' response.data).foldl
    (fun acc lraw =>
      let line := pyStrip lraw
      if ("QUALITY SCORE:".data).isPrefixOf line then
        ((parseDecimal (pyStrip (secondField ':' line))).getD (8 / 10), acc.2.1, acc.2.2)
      else if ("ISSUES FOUND:".data).isPrefixOf line then
        let issues := pyStrip ((splitOnceRest ':' line).getD [])
        if pyLower issues ≠ ("none detected".data) then
          (acc.1, acc.2.1 ++ [String.mk issues], acc.2.2)
        else acc
      else if ("RECOMMENDATIONS:".data).isPrefixOf line then
        (acc.1, acc.2.1, acc.2.2 ++ [String.mk (pyStrip ((splitOnceRest ':' line).getD []))])
      else acc)
    (8 / 10, [], [])

/-- One weather record as seen by the rule-based validator (data_agent.py,
lines 122-183): a dict in which each checked key may be absent (`none`). -/
structure WeatherRecord where
  temperature : Option ℚ := none
  humidity : Option ℚ := none
  pressure : Option ℚ := none
  wind_speed : Option ℚ := none
deriving DecidableEq

/-- Number of applicable checks contributed by one record (`total_checks`
increments once per present key). -/
def record_checks (r : WeatherRecord) : Nat :=
  (if r.temperature.isSome then 1 else 0) + (if r.humidity.isSome then 1 else 0) +
  (if r.pressure.isSome then 1 else 0) + (if r.wind_speed.isSome then 1 else 0)

/-- Number of flagged readings contributed by one record (`issues`
increments once per out-of-range present key). -/
def record_flags (r : WeatherRecord) : Nat :=
  (match r.temperature with
   | some t => if t < -60 ∨ 60 < t then 1 else 0
   | none => 0) +
  (match r.humidity with
   | some x => if x < 0 ∨ 100 < x then 1 else 0
   | none => 0) +
  (match r.pressure with
   | some p => if p < 800 ∨ 1200 < p then 1 else 0
   | none => 0) +
  (match r.wind_speed with
   | some v => if 50 < v then 1 else 0
   | none => 0)

/-- Anomaly messages contributed by one record, in check order. The numeric
interpolation uses the rational's `toString` in place of Python float
formatting. -/
def record_anomalies (r : WeatherRecord) : List String :=
  (match r.temperature with
   | some t => if t < -60 ∨ 60 < t then ["Extreme temperature reading: " ++ toString t ++ "°C"] else []
   | none => []) ++
  (match r.humidity with
   | some x => if x < 0 ∨ 100 < x then ["Invalid humidity reading: " ++ toString x ++ "%"] else []
   | none => []) ++
  (match r.pressure with
   | some p => if p < 800 ∨ 1200 < p then ["Unusual pressure reading: " ++ toString p ++ " hPa"] else []
   | none => []) ++
  (match r.wind_speed with
   | some v => if 50 < v then ["Extreme wind speed: " ++ toString v ++ " m/s"] else []
   | none => [])

/-- Result dict of DataAgent._validate_weather_data. -/
structure ValidationSummary where
  score : ℚ
  anomalies : List String
  recommendations : List String
deriving DecidableEq

def total_checks (records : List WeatherRecord) : Nat :=
  (records.map record_checks).sum

def issues_count (records : List WeatherRecord) : Nat :=
  (records.map record_flags).sum

/-- DataAgent._validate_weather_data (data_agent.py, lines 122-183): the
rule-based validator over the record list; `score = 1.0 - issues /
max(total_checks, 1)`. -/
def validate_weather_data (records : List WeatherRecord) : ValidationSummary :=
  let anomalies := (records.map record_anomalies).flatten
  let score : ℚ := 1 - (issues_count records : ℚ) / ((max (total_checks records) 1 : ℕ) : ℚ)
  let recommendations :=
    (if anomalies = [] then ["Weather data appears reliable for analysis"]
     else ["Review flagged readings before making critical decisions"]) ++
    (if records.length < 5 then ["Consider gathering more data points for better insights"] else [])
  ⟨score, anomalies, recommendations⟩

lemma validate_score_eq (records : List WeatherRecord) :
    (validate_weather_data records).score
      = 1 - (issues_count records : ℚ) / ((max (total_checks records) 1 : ℕ) : ℚ) := rfl

lemma record_flags_le_checks (r : WeatherRecord) : record_flags r ≤ record_checks r := by
  rcases r with ⟨t, x, p, v⟩
  unfold record_flags record_checks
  cases t <;> cases x <;> cases p <;> cases v <;>
    dsimp only [Option.isSome] <;> split_ifs <;> simp_all

lemma issues_le_total (records : List WeatherRecord) :
    issues_count records ≤ total_checks records := by
  unfold issues_count total_checks
  induction records with
  | nil => simp
  | cons r rest ih =>
      simp only [List.map_cons, List.sum_cons]
      exact Nat.add_le_add (record_flags_le_checks r) ih

/-- Claim C6: for every input record set, the rule-based validator's quality
score satisfies 0 ≤ score ≤ 1; it equals 1 - flagged/total_checked when at
least one check applies, and equals 1 when zero checks were applicable. -/
theorem validate_weather_data_spec (records : List WeatherRecord) :
    0 ≤ (validate_weather_data records).score ∧
    (validate_weather_data records).score ≤ 1 ∧
    (0 < total_checks records →
      (validate_weather_data records).score
        = 1 - (issues_count records : ℚ) / (total_checks records : ℚ)) ∧
    (total_checks records = 0 → (validate_weather_data records).score = 1) := by
  have hscore := validate_score_eq records
  have hIT := issues_le_total records
  have hD1 : 1 ≤ max (total_checks records) 1 := Nat.le_max_right _ _
  have hDpos : (0 : ℚ) < ((max (total_checks records) 1 : ℕ) : ℚ) := by
    exact_mod_cast Nat.lt_of_lt_of_le Nat.zero_lt_one hD1
  have hID : issues_count records ≤ max (total_checks records) 1 :=
    hIT.trans (Nat.le_max_left _ _)
  have hfrac_nonneg : 0 ≤ (issues_count records : ℚ) / ((max (total_checks records) 1 : ℕ) : ℚ) :=
    div_nonneg (Nat.cast_nonneg _) (le_of_lt hDpos)
  have hfrac_le_one : (issues_count records : ℚ) / ((max (total_checks records) 1 : ℕ) : ℚ) ≤ 1 :=
    (div_le_one hDpos).2 (by exact_mod_cast hID)
  refine ⟨by rw [hscore]; linarith, by rw [hscore]; linarith, ?_, ?_⟩
  · intro hpos
    rw [hscore, Nat.max_eq_left hpos]
  · intro hzero
    have hI0 : issues_count records = 0 := Nat.le_zero.1 (hzero ▸ hIT)
    rw [hscore, hzero, hI0]
    norm_num

theorem validate_weather_data_spec_witness :
    total_checks [] = 0 ∧ (validate_weather_data []).score = 1 :=
  ⟨rfl, (validate_weather_data_spec []).2.2.2 rfl⟩

/-- WeatherAnalysis (data_agent.py, lines 13-19). `cleaned_data` holds the
standardized record list. -/
structure WeatherAnalysis where
  cleaned_data : List WeatherRecord
  quality_score : ℚ
  anomalies_detected : List String
  summary : String
  recommendations : List String
deriving DecidableEq

/-- pydantic construction of WeatherAnalysis: `quality_score` carries
`Field(ge=0, le=1)` (data_agent.py, line 16), so construction raises a
ValidationError (modelled `.error`) when the score is out of range. -/
def mkWeatherAnalysis (cleaned_data : List WeatherRecord) (quality_score : ℚ)
    (anomalies_detected : List String) (summary : String)
    (recommendations : List String) : Except String WeatherAnalysis :=
  if 0 ≤ quality_score ∧ quality_score ≤ 1 then
    .ok ⟨cleaned_data, quality_score, anomalies_detected, summary, recommendations⟩
  else .error ("ValidationError: quality_score not in range 0 to 1")

/-- Dict view of one WeatherData (`weather_data.dict()`, data_agent.py line
60): every checked key is present. -/
def weather_record (w : WeatherData) : WeatherRecord :=
  ⟨some w.temperature, some w.humidity, some w.pressure, some w.wind_speed⟩

/-- DataAgent.process_weather_data (data_agent.py, lines 52-95) on the
WeatherData input branch. `response` is the free text returned by the
external text-generation backend for the quality prompt; the AI-parsed and
rule-based signals are merged (max of scores, concatenation of lists) and
the pydantic constructor validates the merged score. -/
def process_weather_data (w : WeatherData) (response : String) : Except String WeatherAnalysis :=
  let parsed := parse_ai_response response
  let validation := validate_weather_data [weather_record w]
  mkWeatherAnalysis [weather_record w] (max parsed.1 validation.score)
    (parsed.2.1 ++ validation.anomalies) response (parsed.2.2 ++ validation.recommendations)

/-- Claim C7: every data-quality analysis that is produced carries the
maximum of the rule-based score and the score parsed from the
text-generation response, and its anomaly and recommendation lists are the
concatenation of the parsed lists and the rule-based lists, with no
deduplication between the two sources. -/
theorem process_weather_data_spec (w : WeatherData) (response : String)
    (a : WeatherAnalysis) (h : process_weather_data w response = .ok a) :
    a.quality_score
      = max (parse_ai_response response).1 (validate_weather_data [weather_record w]).score ∧
    a.anomalies_detected
      = (parse_ai_response response).2.1 ++ (validate_weather_data [weather_record w]).anomalies ∧
    a.recommendations
      = (parse_ai_response response).2.2 ++ (validate_weather_data [weather_record w]).recommendations := by
  unfold process_weather_data mkWeatherAnalysis at h
  simp only [] at h
  split at h
  · rw [Except.ok.injEq] at h
    subst h
    exact ⟨rfl, rfl, rfl⟩
  · exact absurd h (by simp)

/-- Concrete in-range reading for the claim C7 witness. -/
def c7w : WeatherData :=
  ⟨"Manila, PH", 14, 121, 30, 70, 1008, 3, 180, "Clouds", "scattered clouds", 0, none, none⟩

lemma c7w_parse : parse_ai_response ("") = (8 / 10, [], []) := rfl

lemma c7w_score : (validate_weather_data [weather_record c7w]).score = 1 := by
  rw [validate_score_eq]
  rw [show issues_count [weather_record c7w] = 0 from rfl]
  rw [show total_checks [weather_record c7w] = 4 from rfl]
  norm_num

lemma c7w_run : process_weather_data c7w ("")
    = .ok ⟨[weather_record c7w], 1, [], "",
           ["Weather data appears reliable for analysis",
            "Consider gathering more data points for better insights"]⟩ := by
  simp only [process_weather_data]
  rw [c7w_parse, c7w_score]
  show mkWeatherAnalysis _ (max (8 / 10) 1) _ _ _ = _
  rw [max_eq_right (by norm_num : (8 : ℚ) / 10 ≤ 1)]
  unfold mkWeatherAnalysis
  rw [if_pos (by norm_num)]
  rfl

theorem process_weather_data_spec_witness :
    process_weather_data c7w ("")
      = .ok ⟨[weather_record c7w], 1, [], "",
             ["Weather data appears reliable for analysis",
              "Consider gathering more data points for better insights"]⟩ ∧
    (1 : ℚ) = max (parse_ai_response ("")).1 (validate_weather_data [weather_record c7w]).score :=
  ⟨c7w_run, (process_weather_data_spec c7w ("") _ c7w_run).1⟩

/-! Part 4: agents/advice_agent.py -/

/-- Recommendation (advice_agent.py, lines 11-21). All label fields are
plain pydantic `str` fields: the vocabularies in the `Field` descriptions
are documentation only, no validator constrains them. -/
structure Recommendation where
  target_audience : String
  action_type : String
  priority : String
  title : String
  action : String
  reasoning : String
  timing : String
  resources_needed : List String := []
deriving DecidableEq

/-- Lookup in the priority-rank dict of `_create_action_checklist`
(advice_agent.py, line 350); `none` models the `KeyError` raised for a
string outside the four keys. -/
def priorityRank : String → Option Nat
  | "critical" => some 0
  | "high" => some 1
  | "medium" => some 2
  | "low" => some 3
  | _ => none

/-- Lookup in the timing-rank dict of `_create_action_checklist`
(advice_agent.py, line 351); `none` models the `KeyError`. -/
def timingRank : String → Option Nat
  | "now" => some 0
  | "within_24h" => some 1
  | "this_week" => some 2
  | "next_week" => some 3
  | _ => none

/-- Sort key of `_create_action_checklist`: the (priority rank, timing rank)
tuple, `none` when either dict lookup raises. -/
def recSortKey (r : Recommendation) : Option (Nat × Nat) :=
  match priorityRank r.priority, timingRank r.timing with
  | some p, some t => some (p, t)
  | _, _ => none

/-- Lexicographic comparison of the sort keys, Python tuple order. The
`getD` defaults are never reached: the checklist evaluates keys first and
fails on any unknown label. -/
def recLE (a b : Recommendation) : Prop :=
  (priorityRank a.priority).getD 0 < (priorityRank b.priority).getD 0 ∨
  ((priorityRank a.priority).getD 0 = (priorityRank b.priority).getD 0 ∧
    (timingRank a.timing).getD 0 ≤ (timingRank b.timing).getD 0)

instance : DecidableRel recLE := fun a b => by unfold recLE; infer_instance

instance : IsTotal Recommendation recLE :=
  ⟨by intro a b; unfold recLE; omega⟩

instance : IsTrans Recommendation recLE :=
  ⟨by intro a b c h1 h2; unfold recLE at h1 h2 ⊢; omega⟩

/-- Timing-label dict with its `.get` default (advice_agent.py, lines
356-361). -/
def timing_label (t : String) : String :=
  match t with
  | "now" => "🔴 NOW"
  | "within_24h" => "🟡 24H"
  | "this_week" => "🟢 WEEK"
  | "next_week" => "🔵 LATER"
  | _ => "⚪ PLAN"

/-- AdviceAgent._create_action_checklist (advice_agent.py, lines 342-365):
CPython's `sorted` materializes the key of every element before sorting, so
any recommendation whose priority or timing is outside the rank dicts
raises `KeyError` (modelled `none`); otherwise the stable sort by
(priority rank, timing rank), the top-10 cut, and the labelled lines. -/
def create_action_checklist (recs : List Recommendation) : Option (List String) :=
  if recs.all (fun r => (recSortKey r).isSome) then
    some (((List.insertionSort recLE recs).take 10).map
      (fun r => timing_label r.timing ++ ": " ++ r.title))
  else none

/-- The spec's ordering scenario: priorities {low, critical, medium} with
timings {this_week, now, within_24h}. -/
def c8recs : List Recommendation :=
  [⟨"general_public", "planning", "low", "Plan the week", "", "", "this_week", []⟩,
   ⟨"general_public", "immediate", "critical", "Evacuate now", "", "", "now", []⟩,
   ⟨"farmers", "preparation", "medium", "Prepare covers", "", "", "within_24h", []⟩]

/-- Claim C8: every produced action checklist has at most 10 entries and is
the image of a permutation of the recommendations sorted by (priority rank,
timing rank) with rank orders critical<high<medium<low and
now<within_24h<this_week<next_week; in particular on the spec's
{low, critical, medium} scenario the critical/now item is listed first. -/
theorem create_action_checklist_spec :
    (∀ recs l, create_action_checklist recs = some l →
      l.length ≤ 10 ∧
      ∃ recs2 : List Recommendation, recs2.Perm recs ∧ recs2.Pairwise recLE ∧
        l = (recs2.take 10).map (fun r => timing_label r.timing ++ ": " ++ r.title)) ∧
    (∃ rest, create_action_checklist c8recs = some (("🔴 NOW: Evacuate now") :: rest)) := by
  constructor
  · intro recs l h
    unfold create_action_checklist at h
    split at h
    case isTrue hall =>
      rw [Option.some.injEq] at h
      subst h
      refine ⟨?_, List.insertionSort recLE recs, List.perm_insertionSort recLE recs,
        List.sorted_insertionSort recLE recs, rfl⟩
      rw [List.length_map]
      exact List.length_take_le _ _
    case isFalse => exact absurd h (by simp)
  · exact ⟨["🟡 24H: Prepare covers", "🟢 WEEK: Plan the week"], by decide⟩

theorem create_action_checklist_spec_witness :
    create_action_checklist c8recs
      = some ["🔴 NOW: Evacuate now", "🟡 24H: Prepare covers", "🟢 WEEK: Plan the week"] ∧
    (["🔴 NOW: Evacuate now", "🟡 24H: Prepare covers", "🟢 WEEK: Plan the week"] : List String).length ≤ 10 :=
  ⟨by decide, (create_action_checklist_spec.1 c8recs
    ["🔴 NOW: Evacuate now", "🟡 24H: Prepare covers", "🟢 WEEK: Plan the week"] (by decide)).1⟩

/-- One parsed item of the JSON array returned by the extraction call in
`_extract_recommendations_with_ai` (advice_agent.py, lines 224-238); absent
keys are `none` (Python `item.get`). -/
structure RecItem where
  target_audience : Option String := none
  action_type : Option String := none
  priority : Option String := none
  title : Option String := none
  action : Option String := none
  reasoning : Option String := none
  timing : Option String := none
  resources_needed : Option (List String) := none

/-- Conversion of one parsed item into a Recommendation
(advice_agent.py, lines 226-235): `item.get` defaults only, the priority
and timing strings pass through unvalidated. -/
def recommendation_of_item (item : RecItem) : Recommendation :=
  ⟨item.target_audience.getD "general_public",
   item.action_type.getD "planning",
   item.priority.getD "medium",
   item.title.getD "Weather action",
   item.action.getD "",
   item.reasoning.getD "Based on weather conditions",
   item.timing.getD "within_24h",
   item.resources_needed.getD []⟩

/-- Extraction item whose priority and timing are outside the checklist
vocabularies. -/
def c10item : RecItem :=
  ⟨none, none, some ("urgent"), some ("Sandbag the riverbank"), none, none, some ("someday"), none⟩

lemma recSortKey_isSome {r : Recommendation} (hp : (priorityRank r.priority).isSome)
    (ht : (timingRank r.timing).isSome) : (recSortKey r).isSome := by
  unfold recSortKey
  cases hps : priorityRank r.priority with
  | none => rw [hps] at hp; simp at hp
  | some p =>
      cases hts : timingRank r.timing with
      | none => rw [hts] at ht; simp at ht
      | some t => simp

/-- Claim C10: the action-checklist construction is total when every
priority and timing is in the rank vocabularies, the AI-extraction path
passes the backend's priority and timing strings through unvalidated, and
for a recommendation carrying an out-of-vocabulary priority or timing the
sort-key lookup raises (modelled `none`), failing the advice stage. -/
theorem create_action_checklist_total_iff_vocab :
    (∀ recs, (∀ r ∈ recs, (priorityRank r.priority).isSome ∧ (timingRank r.timing).isSome) →
      (create_action_checklist recs).isSome) ∧
    ((recommendation_of_item c10item).priority = "urgent" ∧
      (recommendation_of_item c10item).timing = "someday") ∧
    create_action_checklist [recommendation_of_item c10item] = none := by
  refine ⟨?_, ⟨rfl, rfl⟩, by decide⟩
  intro recs h
  unfold create_action_checklist
  rw [if_pos]
  · simp
  · exact List.all_eq_true.2 (fun r hr => recSortKey_isSome (h r hr).1 (h r hr).2)

theorem create_action_checklist_total_iff_vocab_witness :
    (create_action_checklist c8recs).isSome :=
  create_action_checklist_total_iff_vocab.1 c8recs (by decide)

/-! Part 5: the audience-prompt cache shared by forecast_agent.py and
advice_agent.py -/

/-- The `_audience_prompt_cache` dict owned by each agent instance
(forecast_agent.py line 40, advice_agent.py line 38), embedded as an
association list with newest entries first. -/
structure PromptCache where
  cache : List (String × String)
deriving DecidableEq

/-- _create_audience_prompt (forecast_agent.py lines 125-178 and
advice_agent.py lines 392-451, identical get-or-generate-and-store logic):
`llm` is the external text-generation backend answering the meta-generation
prompt, whose only variable part is the audience string; the generated
template is `response.content.strip()`. The returned Nat counts backend
invocations made by this call (the spec's call-counting stub). -/
def create_audience_prompt (llm : String → String) (st : PromptCache)
    (audience : String) : String × PromptCache × Nat :=
  match st.cache.lookup audience with
  | some tmpl => (tmpl, st, 0)
  | none =>
      let generated := String.mk (pyStrip (llm audience).data)
      (generated, ⟨(audience, generated) :: st.cache⟩, 1)

/-- Claim C9: the first request for an audience invokes the backend once and
stores the template under that audience string; any request that finds the
audience cached returns the cached template with zero backend invocations
and an unchanged cache, so the second request with the same audience hits
the cache. -/
theorem create_audience_prompt_spec :
    (∀ (llm : String → String) (st : PromptCache) (a tmpl : String),
      st.cache.lookup a = some tmpl → create_audience_prompt llm st a = (tmpl, st, 0)) ∧
    (∀ (llm : String → String) (st : PromptCache) (a : String),
      st.cache.lookup a = none →
        (create_audience_prompt llm st a).2.2 = 1 ∧
        ((create_audience_prompt llm st a).2.1).cache.lookup a
          = some (create_audience_prompt llm st a).1 ∧
        create_audience_prompt llm (create_audience_prompt llm st a).2.1 a
          = ((create_audience_prompt llm st a).1, (create_audience_prompt llm st a).2.1, 0)) := by
  constructor
  · intro llm st a tmpl h
    unfold create_audience_prompt
    rw [h]
  · intro llm st a h
    have hstep : create_audience_prompt llm st a
        = (String.mk (pyStrip (llm a).data),
           ⟨(a, String.mk (pyStrip (llm a).data)) :: st.cache⟩, 1) := by
      unfold create_audience_prompt
      rw [h]
    rw [hstep]
    have hlook : List.lookup a ((a, String.mk (pyStrip (llm a).data)) :: st.cache)
        = some (String.mk (pyStrip (llm a).data)) := by
      simp [List.lookup]
    refine ⟨rfl, hlook, ?_⟩
    unfold create_audience_prompt
    rw [show (PromptCache.mk ((a, String.mk (pyStrip (llm a).data)) :: st.cache)).cache.lookup a
        = some (String.mk (pyStrip (llm a).data)) from hlook]

theorem create_audience_prompt_spec_witness :
    (PromptCache.mk []).cache.lookup ("farmers") = none ∧
    (create_audience_prompt id ⟨[]⟩ ("farmers")).2.2 = 1 :=
  ⟨rfl, (create_audience_prompt_spec.2 id ⟨[]⟩ ("farmers") rfl).1⟩

/-! Part 6: workflows/weather_workflow.py -/

/-- WeatherInsight (forecast_agent.py, lines 15-22). -/
structure WeatherInsight where
  category : String
  priority : String
  time_horizon : String
  title : String
  description : String
  confidence : ℚ
deriving DecidableEq

/-- ForecastAnalysis (forecast_agent.py, lines 25-32); the generation
datetime is embedded as an integer epoch. -/
structure ForecastAnalysis where
  location : String
  analysis_time : Int
  insights : List WeatherInsight
  weather_trends : List String
  risk_alerts : List String
  summary : String
deriving DecidableEq

/-- AdviceReport (advice_agent.py, lines 23-30). -/
structure AdviceReport where
  location : String
  report_time : Int
  recommendations : List Recommendation
  priority_summary : String
  action_checklist : List String
  contact_suggestions : List String
deriving DecidableEq

/-- WorkflowState (weather_workflow.py, lines 18-30): the mutable state
dict threaded through the five LangGraph nodes. -/
structure WorkflowState where
  location : String
  latitude : Option ℚ
  longitude : Option ℚ
  current_weather : Option WeatherData
  forecast_data : Option ForecastData
  data_analysis : Option WeatherAnalysis
  forecast_analysis : Option ForecastAnalysis
  advice_report : Option AdviceReport
  rag_knowledge : Option (List RAGResult)
  error : Option String
  audience : String
deriving DecidableEq

/-- External collaborators of one pipeline run, bundled as oracles: the
weather service calls (weather_api.py), the three agent calls (each of
which performs its own text-generation round-trips) and the RAG search.
`Except.error` carries `str(e)` of the raised exception; `now` is the
wall-clock reading used for result timestamps. -/
structure WorkflowEnv where
  now : Int
  get_coordinates : String → Except String (ℚ × ℚ)
  get_current_weather : ℚ → ℚ → String → Except String WeatherData
  get_forecast : ℚ → ℚ → String → Except String ForecastData
  process_weather_data : WeatherData → Except String WeatherAnalysis
  analyze_forecast : WeatherData → ForecastData → String → Except String ForecastAnalysis
  get_contextual_knowledge : String → String → String → Except String (List RAGResult)
  generate_advice : WeatherAnalysis → ForecastAnalysis → String → Except String AdviceReport

/-- Python truthiness of `state.get("latitude")`: `None` and `0.0` are both
falsy (weather_workflow.py, line 102 tests `not state.get(...)`), so a zero
coordinate triggers geocoding. -/
def pyFalsy (x : Option ℚ) : Bool :=
  match x with
  | none => true
  | some v => v == 0

/-- Node 1, _fetch_weather_data (weather_workflow.py, lines 96-124):
geocode when needed, then fetch current weather and forecast jointly; any
raised provider error is converted into the state's error field. The
coordinates are written into the state before the fetches, as in the
source, so they survive a fetch failure. -/
def fetch_weather_data (env : WorkflowEnv) (state : WorkflowState) : WorkflowState :=
  match (if pyFalsy state.latitude || pyFalsy state.longitude then
           env.get_coordinates state.location
         else .ok (state.latitude.getD 0, state.longitude.getD 0)) with
  | .error e => { state with error := some ("Weather data fetch failed: " ++ e) }
  | .ok (lat, lon) =>
      let state2 := { state with latitude := some lat, longitude := some lon }
      match env.get_current_weather lat lon state.location,
            env.get_forecast lat lon state.location with
      | .ok cw, .ok fd =>
          { state2 with current_weather := some cw, forecast_data := some fd }
      | .error e, _ => { state2 with error := some ("Weather data fetch failed: " ++ e) }
      | .ok _, .error e => { state2 with error := some ("Weather data fetch failed: " ++ e) }

/-- Node 2, _analyze_data_quality (weather_workflow.py, lines 126-143). -/
def analyze_data_quality (env : WorkflowEnv) (state : WorkflowState) : WorkflowState :=
  match state.current_weather, state.forecast_data with
  | some cw, some _ =>
      (match env.process_weather_data cw with
       | .ok a => { state with data_analysis := some a }
       | .error e => { state with error := some ("Data analysis failed: " ++ e) })
  | _, _ => { state with error := some ("Missing weather data for analysis") }

/-- Node 3, _analyze_forecast (weather_workflow.py, lines 145-167). -/
def analyze_forecast (env : WorkflowEnv) (state : WorkflowState) : WorkflowState :=
  match state.current_weather, state.forecast_data with
  | some cw, some fd =>
      (match env.analyze_forecast cw fd state.audience with
       | .ok fa => { state with forecast_analysis := some fa }
       | .error e => { state with error := some ("Forecast analysis failed: " ++ e) })
  | _, _ => { state with error := some ("Missing weather data for forecast analysis") }

/-- Node 4, _retrieve_relevant_knowledge (weather_workflow.py, lines
169-199): build the composite condition string and query the RAG service. -/
def retrieve_relevant_knowledge (env : WorkflowEnv) (state : WorkflowState) : WorkflowState :=
  match state.current_weather, state.forecast_analysis with
  | some cw, some fa =>
      let conditions0 := cw.weather_condition ++ " " ++ cw.description
      let conditions :=
        if fa.risk_alerts ≠ [] then
          conditions0 ++ " " ++ String.intercalate " " fa.risk_alerts
        else conditions0
      (match env.get_contextual_knowledge conditions cw.location state.audience with
       | .ok ks => { state with rag_knowledge := some ks }
       | .error e => { state with error := some ("Knowledge retrieval failed: " ++ e) })
  | _, _ => { state with error := some ("Missing data for knowledge retrieval") }

/-- Node 5, _generate_recommendations (weather_workflow.py, lines 201-224). -/
def generate_recommendations (env : WorkflowEnv) (state : WorkflowState) : WorkflowState :=
  match state.data_analysis, state.forecast_analysis with
  | some da, some fa =>
      (match env.generate_advice da fa state.audience with
       | .ok ar => { state with advice_report := some ar }
       | .error e => { state with error := some ("Advice generation failed: " ++ e) })
  | _, _ => { state with error := some ("Missing analysis data for advice generation") }

/-- The compiled LangGraph pipeline (weather_workflow.py, lines 73-94):
the five nodes in their fixed edge order, with no error short-circuiting
between nodes. -/
def run_workflow (env : WorkflowEnv) (state : WorkflowState) : WorkflowState :=
  generate_recommendations env (retrieve_relevant_knowledge env
    (analyze_forecast env (analyze_data_quality env (fetch_weather_data env state))))

/-- WeatherInsightsResult (weather_workflow.py, lines 33-42): note that
`data_quality`, `forecast_insights` and `recommendations` are required,
non-Optional pydantic fields. -/
structure WeatherInsightsResult where
  location : String
  analysis_time : Int
  data_quality : WeatherAnalysis
  forecast_insights : ForecastAnalysis
  recommendations : AdviceReport
  relevant_knowledge : List RAGResult
  success : Bool
  error_message : Option String
deriving DecidableEq

/-- pydantic construction of WeatherInsightsResult: passing `None` for any
of the three required structured fields raises a ValidationError, modelled
as `.error`. -/
def mkWeatherInsightsResult (location : String) (analysis_time : Int)
    (data_quality : Option WeatherAnalysis) (forecast_insights : Option ForecastAnalysis)
    (recommendations : Option AdviceReport) (relevant_knowledge : List RAGResult)
    (success : Bool) (error_message : Option String) :
    Except String WeatherInsightsResult :=
  match data_quality, forecast_insights, recommendations with
  | some dq, some fi, some recs =>
      .ok ⟨location, analysis_time, dq, fi, recs, relevant_knowledge, success, error_message⟩
  | _, _, _ => .error ("ValidationError: none is not an allowed value")

/-- The initial state dict of run_analysis (weather_workflow.py, lines
236-248). -/
def initial_state (location audience : String) (latitude longitude : Option ℚ) :
    WorkflowState :=
  ⟨location, latitude, longitude, none, none, none, none, none, none, none, audience⟩

/-- run_analysis (weather_workflow.py, lines 226-275): run the workflow and
assemble either the failure result (error branch, all structured fields
passed as None) or the success result. `.error` models an exception
escaping to the caller. -/
def run_analysis (env : WorkflowEnv) (location : String) (audience : String)
    (latitude longitude : Option ℚ) : Except String WeatherInsightsResult :=
  let final_state := run_workflow env (initial_state location audience latitude longitude)
  match final_state.error with
  | some err => mkWeatherInsightsResult location env.now none none none [] false (some err)
  | none =>
      mkWeatherInsightsResult location env.now final_state.data_analysis
        final_state.forecast_analysis final_state.advice_report
        (final_state.rag_knowledge.getD []) true none

/-- run_batch_analysis (weather_workflow.py, lines 277-310):
`asyncio.gather(..., return_exceptions=True)` collects one Except per
location; the result loop converts each captured exception into a failure
WeatherInsightsResult — whose pydantic construction itself can raise,
escaping the loop (modelled by `mapM` propagating `.error`). -/
def run_batch_analysis (env : WorkflowEnv) (locations : List String)
    (audience : String) : Except String (List WeatherInsightsResult) :=
  let results := locations.map (fun loc => run_analysis env loc audience none none)
  (locations.zip results).mapM (fun p =>
    match p.2 with
    | .ok res => .ok res
    | .error e => mkWeatherInsightsResult p.1 env.now none none none [] false (some e))

deriving instance DecidableEq for Except

/-- Environment in which geocoding fails for every location; the remaining
oracles are never consulted on the error path. -/
def envGeoFail : WorkflowEnv :=
  ⟨0, fun city => .error ("City not found: " ++ city),
   fun _ _ _ => .error ("unreachable"), fun _ _ _ => .error ("unreachable"),
   fun _ => .error ("unreachable"), fun _ _ _ => .error ("unreachable"),
   fun _ _ _ => .error ("unreachable"), fun _ _ _ => .error ("unreachable")⟩

/-- Claim C1 (code bug): on any run whose final state carries an error, the
failure branch of run_analysis passes None for the three required pydantic
fields of WeatherInsightsResult, so result construction raises a
ValidationError that escapes run_analysis instead of returning the claimed
failure result. Evaluated here at a concrete failing input: a location
whose geocoding fails. -/
theorem run_analysis_raises_on_failure :
    run_analysis envGeoFail ("Nowhere") ("general") none none
      = .error ("ValidationError: none is not an allowed value") ∧
    (run_workflow envGeoFail (initial_state ("Nowhere") ("general") none none)).error
      = some ("Missing analysis data for advice generation") := by
  decide

/-- Counterexample to claim C2: when the fetch stage fails, its error string
is overwritten by every downstream stage's own missing-input message, so the
final state's error is the last failing stage's message, not the first's. -/
theorem error_overwritten_counterexample :
    (fetch_weather_data envGeoFail (initial_state ("Nowhere") ("general") none none)).error
      = some ("Weather data fetch failed: City not found: Nowhere") ∧
    (run_workflow envGeoFail (initial_state ("Nowhere") ("general") none none)).error
      ≠ some ("Weather data fetch failed: City not found: Nowhere") ∧
    (run_workflow envGeoFail (initial_state ("Nowhere") ("general") none none)).error
      = some ("Missing analysis data for advice generation") := by
  decide

lemma analyze_data_quality_missing (env : WorkflowEnv) (st : WorkflowState)
    (h : st.current_weather = none) :
    analyze_data_quality env st
      = { st with error := some ("Missing weather data for analysis") } := by
  unfold analyze_data_quality
  rw [h]

lemma analyze_forecast_missing (env : WorkflowEnv) (st : WorkflowState)
    (h : st.current_weather = none) :
    analyze_forecast env st
      = { st with error := some ("Missing weather data for forecast analysis") } := by
  unfold analyze_forecast
  rw [h]

lemma retrieve_knowledge_missing (env : WorkflowEnv) (st : WorkflowState)
    (h : st.current_weather = none) :
    retrieve_relevant_knowledge env st
      = { st with error := some ("Missing data for knowledge retrieval") } := by
  unfold retrieve_relevant_knowledge
  rw [h]

lemma generate_recommendations_missing (env : WorkflowEnv) (st : WorkflowState)
    (h : st.data_analysis = none) :
    generate_recommendations env st
      = { st with error := some ("Missing analysis data for advice generation") } := by
  unfold generate_recommendations
  rw [h]

lemma fetch_shape (env : WorkflowEnv) (loc aud : String) (lat lon : Option ℚ) :
    (fetch_weather_data env (initial_state loc aud lat lon)).error = none ∨
    ((fetch_weather_data env (initial_state loc aud lat lon)).current_weather = none ∧
     (fetch_weather_data env (initial_state loc aud lat lon)).data_analysis = none) := by
  unfold fetch_weather_data initial_state
  split
  · exact Or.inr ⟨rfl, rfl⟩
  · split
    · exact Or.inl rfl
    · exact Or.inr ⟨rfl, rfl⟩
    · exact Or.inr ⟨rfl, rfl⟩

/-- Claim C2 (amended): once the fetch stage has failed, every downstream
stage overwrites the error field with its own missing-input message, and
the final state's error equals the last stage's message, "Missing analysis
data for advice generation" — not the first failing stage's error string. -/
theorem error_last_stage_spec (env : WorkflowEnv) (loc aud : String)
    (lat lon : Option ℚ)
    (h : (fetch_weather_data env (initial_state loc aud lat lon)).error.isSome) :
    (run_workflow env (initial_state loc aud lat lon)).error
      = some ("Missing analysis data for advice generation") := by
  rcases fetch_shape env loc aud lat lon with hnone | ⟨hcw, hda⟩
  · rw [hnone] at h
    simp at h
  · unfold run_workflow
    set st1 := fetch_weather_data env (initial_state loc aud lat lon) with hst1
    rw [analyze_data_quality_missing env st1 hcw]
    set st2 := { st1 with error := some ("Missing weather data for analysis") } with hst2
    have hcw2 : st2.current_weather = none := hcw
    have hda2 : st2.data_analysis = none := hda
    rw [analyze_forecast_missing env st2 hcw2]
    set st3 := { st2 with error := some ("Missing weather data for forecast analysis") } with hst3
    have hcw3 : st3.current_weather = none := hcw2
    have hda3 : st3.data_analysis = none := hda2
    rw [retrieve_knowledge_missing env st3 hcw3]
    set st4 := { st3 with error := some ("Missing data for knowledge retrieval") } with hst4
    have hda4 : st4.data_analysis = none := hda3
    rw [generate_recommendations_missing env st4 hda4]

theorem error_last_stage_spec_witness :
    (fetch_weather_data envGeoFail (initial_state ("Nowhere") ("general") none none)).error.isSome ∧
    (run_workflow envGeoFail (initial_state ("Nowhere") ("general") none none)).error
      = some ("Missing analysis data for advice generation") :=
  ⟨by decide, error_last_stage_spec envGeoFail ("Nowhere") ("general") none none (by decide)⟩

def wSample : WeatherData :=
  ⟨"sample", 1, 2, 25, 60, 1000, 5, 90, "Clear", "clear sky", 0, none, none⟩

def fdSample : ForecastData := ⟨"sample", [wSample]⟩

def waSample : WeatherAnalysis := ⟨[], 1, [], "ok", []⟩

def faSample : ForecastAnalysis := ⟨"sample", 0, [], [], [], "ok"⟩

def arSample : AdviceReport := ⟨"sample", 0, [], "none", [], []⟩

/-- Environment matching the spec's batch scenario: geocoding fails for
location "B" only, every other call succeeds with fixed data. -/
def envBatch : WorkflowEnv :=
  ⟨0, fun city => if city = "B" then .error ("City not found: " ++ city) else .ok (1, 2),
   fun _ _ _ => .ok wSample, fun _ _ _ => .ok fdSample,
   fun _ => .ok waSample, fun _ _ _ => .ok faSample,
   fun _ _ _ => .ok [], fun _ _ _ => .ok arSample⟩

/-- Claim C3 (code bug): in the spec's scenario of three locations where the
second one's geocoding fails, locations "A" and "C" individually succeed,
"B"'s run_analysis raises a pydantic ValidationError while constructing its
failure result, and run_batch_analysis — instead of returning three results
with the middle one failed — raises the same ValidationError from its own
exception-conversion loop, aborting the whole batch. -/
theorem run_batch_analysis_aborts_on_single_failure :
    run_analysis envBatch ("A") ("general") none none
      = .ok ⟨"A", 0, waSample, faSample, arSample, [], true, none⟩ ∧
    run_analysis envBatch ("C") ("general") none none
      = .ok ⟨"C", 0, waSample, faSample, arSample, [], true, none⟩ ∧
    run_analysis envBatch ("B") ("general") none none
      = .error ("ValidationError: none is not an allowed value") ∧
    run_batch_analysis envBatch ["A", "B", "C"] ("general")
      = .error ("ValidationError: none is not an allowed value") := by
  decide
